import Mathlib

/-!
Verification development for the Gold Miner ECS game core
(`gold_miner_ecs.h` / `gold_miner_ecs.cpp`, plus the sprite tables of
`sprite_manager.cpp`).

The gameplay systems are translated directly from the C++ source.  The
underlying BAGEL entity/component store (`bagel.h`) is not part of the
sources at hand, so its operations are modelled from the specification:
an entity is an index, its components are a record of optional payloads,
the mask is the pattern of present payloads, and add/remove mutate that
record.  `float` arithmetic is idealised as exact rational arithmetic;
the external numeric library (`sin`, `cos`, `sqrt`, `M_PI`) and the
Box2D physics stepper are parameters of the model.
-/

namespace GoldMiner

/-- `RopeControl::State` from `gold_miner_ecs.h`. -/
inductive RopeState where
  | atRest
  | extending
  | retracting
deriving DecidableEq

/-- `ItemType::Type` from `gold_miner_ecs.h`. -/
inductive ItemKind where
  | gold
  | rock
  | diamond
  | treasureChest
  | mysteryBag
deriving DecidableEq

structure Position where
  x : ℚ
  y : ℚ
deriving DecidableEq

structure Velocity where
  dx : ℚ
  dy : ℚ
deriving DecidableEq

structure Rotation where
  angle : ℚ
deriving DecidableEq

structure Length where
  value : ℚ
deriving DecidableEq

structure Renderable where
  spriteID : Int
deriving DecidableEq

structure PlayerInfo where
  playerID : Int
deriving DecidableEq

structure RopeControl where
  state : RopeState
deriving DecidableEq

structure ItemType where
  type : ItemKind
deriving DecidableEq

structure Value where
  amount : Int
deriving DecidableEq

structure Weight where
  w : ℚ
deriving DecidableEq

structure Score where
  points : Int
deriving DecidableEq

structure GameTimer where
  timeLeft : ℚ
deriving DecidableEq

structure UIComponent where
  uiID : Int
deriving DecidableEq

structure SoundEffect where
  soundID : Int
deriving DecidableEq

structure Name where
  label : String
deriving DecidableEq

structure Health where
  hp : Int
deriving DecidableEq

structure Mole where
  speed : ℚ
  movingRight : Bool
deriving DecidableEq

structure LifeTime where
  remaining : ℚ
deriving DecidableEq

/-- `GrabbedJoint`: joint handle plus the id of the attached item. -/
structure GrabbedJoint where
  joint : Nat
  attachedEntityId : Nat
deriving DecidableEq

structure PhysicsBody where
  bodyId : Nat
deriving DecidableEq

structure PlayerInput where
  sendRope : Bool
  retractRope : Bool
deriving DecidableEq

/-- Modelled from the spec: the per-entity component record of the BAGEL
store.  An entity "has" a component type iff the corresponding field is
`some`/`true`; this field pattern is the entity's mask.  Marker (tag)
components carry no payload and are plain booleans. -/
structure EntityComps where
  position : Option Position := none
  velocity : Option Velocity := none
  rotation : Option Rotation := none
  length : Option Length := none
  renderable : Option Renderable := none
  playerInfo : Option PlayerInfo := none
  ropeControl : Option RopeControl := none
  itemType : Option ItemType := none
  value : Option Value := none
  weight : Option Weight := none
  score : Option Score := none
  gameTimer : Option GameTimer := none
  uiComponent : Option UIComponent := none
  soundEffect : Option SoundEffect := none
  name : Option Name := none
  health : Option Health := none
  mole : Option Mole := none
  lifeTime : Option LifeTime := none
  grabbedJoint : Option GrabbedJoint := none
  physicsBody : Option PhysicsBody := none
  playerInput : Option PlayerInput := none
  scoredTag : Bool := false
  collectable : Bool := false
  roperTag : Bool := false
  gameOverTag : Bool := false
  collidable : Bool := false
  destroyTag : Bool := false
deriving DecidableEq

/-- The record of an entity carrying no components (empty mask). -/
def emptyComps : EntityComps := {}

/-- The mask of an entity is empty: no component of any type is present. -/
def maskEmpty (c : EntityComps) : Prop := c = emptyComps

instance : DecidablePred maskEmpty := fun c => by
  unfold maskEmpty; infer_instance

/-- Box2D body kinds used by the game (`b2_staticBody` / `b2_dynamicBody`). -/
inductive BodyType where
  | staticBody
  | dynamicBody
deriving DecidableEq

/-- Model of an external Box2D rigid body: kind, transform position (in
meters), velocities, gravity scale, and the heap-allocated user-data
back-reference to the owning entity id (`none` once freed / never set). -/
structure Body where
  btype : BodyType
  posX : ℚ
  posY : ℚ
  velX : ℚ
  velY : ℚ
  angVel : ℚ
  gravityScale : ℚ
  userData : Option Nat
deriving DecidableEq

/-- Model of a Box2D weld joint as created by `TryAttachCollectable`. -/
structure Joint where
  bodyIdA : Nat
  bodyIdB : Nat
  collideConnected : Bool
deriving DecidableEq

/-- Model of the external Box2D world: bodies and joints by handle, with
fresh-handle counters. -/
structure PhysWorld where
  bodies : Nat → Option Body
  joints : Nat → Option Joint
  nextBodyId : Nat
  nextJointId : Nat

/-- Modelled from the spec: the whole simulation state — the BAGEL world
(`numEnts` ids issued so far, `maxId = numEnts - 1`; components per id)
together with the external physics world and the static
`swingDirections` map of `RopeSwingSystem`. -/
structure GMState where
  numEnts : Nat
  ents : Nat → EntityComps
  phys : PhysWorld
  swingDirs : Nat → Option ℚ

/-- Modelled from the spec: `add<T>`/`remove<T>`/component writes on one
entity mutate that entity's record in the store. -/
def updComps (s : GMState) (i : Nat) (f : EntityComps → EntityComps) : GMState :=
  { s with ents := Function.update s.ents i (f (s.ents i)) }

/-- Apply a physics-engine mutation to the simulation state. -/
def withPhys (s : GMState) (f : PhysWorld → PhysWorld) : GMState :=
  { s with phys := f s.phys }

/-- `b2Body_SetLinearVelocity`. -/
def setLinearVelocity (bid : Nat) (vx vy : ℚ) (pw : PhysWorld) : PhysWorld :=
  { pw with bodies := fun k =>
      if k = bid then (pw.bodies k).map (fun b => { b with velX := vx, velY := vy })
      else pw.bodies k }

/-- `b2Body_SetAngularVelocity`. -/
def setAngularVelocity (bid : Nat) (av : ℚ) (pw : PhysWorld) : PhysWorld :=
  { pw with bodies := fun k =>
      if k = bid then (pw.bodies k).map (fun b => { b with angVel := av })
      else pw.bodies k }

/-- `b2Body_SetGravityScale`. -/
def setGravityScale (bid : Nat) (g : ℚ) (pw : PhysWorld) : PhysWorld :=
  { pw with bodies := fun k =>
      if k = bid then (pw.bodies k).map (fun b => { b with gravityScale := g })
      else pw.bodies k }

/-- `b2Body_SetTransform` (the game only ever moves the position part). -/
def setBodyPos (bid : Nat) (px py : ℚ) (pw : PhysWorld) : PhysWorld :=
  { pw with bodies := fun k =>
      if k = bid then (pw.bodies k).map (fun b => { b with posX := px, posY := py })
      else pw.bodies k }

/-- `b2Body_SetType`. -/
def setBodyType (bid : Nat) (t : BodyType) (pw : PhysWorld) : PhysWorld :=
  { pw with bodies := fun k =>
      if k = bid then (pw.bodies k).map (fun b => { b with btype := t })
      else pw.bodies k }

/-- `b2CreateWeldJoint` with `collideConnected = false` as set up by
`TryAttachCollectable`; returns a fresh joint handle. -/
def createWeldJoint (ba bb : Nat) (pw : PhysWorld) : PhysWorld :=
  { pw with
    joints := Function.update pw.joints pw.nextJointId (some ⟨ba, bb, false⟩)
    nextJointId := pw.nextJointId + 1 }

/-- `b2DestroyJoint`. -/
def destroyJoint (jid : Nat) (pw : PhysWorld) : PhysWorld :=
  { pw with joints := Function.update pw.joints jid none }

/-- `b2Body_GetPosition` (returns the origin for an invalid handle; the
game only reads positions of bodies it created). -/
def bodyPosOf (pw : PhysWorld) (bid : Nat) : ℚ × ℚ :=
  match pw.bodies bid with
  | some b => (b.posX, b.posY)
  | none => (0, 0)

/-- `b2Body_GetUserData` seen as the entity back-reference resolution of
`CollisionSystem`: the body's user-data pointer, if the body exists and
the pointer was installed. -/
def userDataOf (pw : PhysWorld) (bid : Nat) : Option Nat :=
  (pw.bodies bid).bind (fun b => b.userData)

/-- Sprite-sheet source-rectangle widths from `sprite_manager.cpp`
(`gSrcRects`); indices follow the `SpriteID` enum, unset entries are the
zero-initialised default. -/
def spriteSrcW : Int → ℚ
  | 0 => 35
  | 1 => 77
  | 2 => 41
  | 3 => 88
  | 5 => 77
  | 6 => 164
  | 9 => 112
  | 10 => 83
  | 12 => 1280
  | 15 => 30
  | 16 => 24
  | 17 => 32
  | 18 => 31
  | 19 => 31
  | 20 => 30
  | 21 => 29
  | 22 => 28
  | 23 => 27
  | 24 => 28
  | _ => 0

/-- Sprite-sheet source-rectangle heights from `sprite_manager.cpp`. -/
def spriteSrcH : Int → ℚ
  | 0 => 30
  | 1 => 87
  | 2 => 32
  | 3 => 82
  | 5 => 67
  | 6 => 169
  | 9 => 32
  | 10 => 25
  | 12 => 720
  | 15 => 52
  | 16 => 53
  | 17 => 52
  | 18 => 55
  | 19 => 58
  | 20 => 56
  | 21 => 53
  | 22 => 58
  | 23 => 55
  | 24 => 54
  | _ => 0

/-- `GetSpriteOffset`: half width / half height of the sprite. -/
def spriteOffset (spriteID : Int) : ℚ × ℚ :=
  (spriteSrcW spriteID / 2, spriteSrcH spriteID / 2)

/-- The external numeric library used by the systems (`sinf`, `cosf`,
`sqrtf`, `M_PI`), kept abstract: the rope logic under verification does
not depend on its values. -/
structure MathModel where
  sin : ℚ → ℚ
  cos : ℚ → ℚ
  sqrt : ℚ → ℚ
  pi : ℚ

/-- An SDL event as inspected by `PlayerInputSystem`: its type tag and,
for key events, the keycode. -/
structure SDLEvent where
  etype : Nat
  key : Nat

def SDL_EVENT_KEY_DOWN : Nat := 768

def SDLK_SPACE : Nat := 32

/-- `PlayerInputSystem` (gold_miner_ecs.cpp): a null event returns at
once; otherwise `sendRope` of every entity holding `PlayerInput` is
overwritten with whether this event is a space key-down. -/
def PlayerInputSystem (event : Option SDLEvent) (s : GMState) : GMState :=
  match event with
  | none => s
  | some e =>
      let spacePressed := e.etype = SDL_EVENT_KEY_DOWN ∧ e.key = SDLK_SPACE
      { s with ents := fun i =>
          if i < s.numEnts ∧ (s.ents i).playerInput.isSome then
            { s.ents i with playerInput :=
                (s.ents i).playerInput.map (fun pin =>
                  { pin with sendRope := decide spacePressed }) }
          else s.ents i }

/-- The per-entity effect of `DestructionSystem`: delete exactly the
component types the source enumerates (all Box2D cleanup in the source
is commented out, so the physics world is untouched). -/
def destroyEntityComps (c : EntityComps) : EntityComps :=
  { c with
    position := none
    velocity := none
    rotation := none
    length := none
    renderable := none
    playerInfo := none
    ropeControl := none
    itemType := none
    value := none
    weight := none
    grabbedJoint := none
    physicsBody := none
    playerInput := none
    collectable := false
    roperTag := false
    gameOverTag := false
    collidable := false
    destroyTag := false }

/-- `DestructionSystem` (gold_miner_ecs.cpp): every live entity currently
carrying `DestroyTag` has the enumerated component types removed; each
iteration touches only its own entity, so the loop is a pointwise map. -/
def DestructionSystem (s : GMState) : GMState :=
  { s with ents := fun i =>
      if i < s.numEnts ∧ (s.ents i).destroyTag then destroyEntityComps (s.ents i)
      else s.ents i }

/-- Modelled from the spec: `stepWorld(dt, iterations)` of the external
physics engine advances dynamic bodies by engine-internal dynamics
(abstracted as an arbitrary per-body update) while static bodies are
immovable. -/
def stepWorld (f : Nat → Body → Body) (pw : PhysWorld) : PhysWorld :=
  { pw with bodies := fun bid =>
      (pw.bodies bid).map (fun b =>
        if b.btype = BodyType.staticBody then b else f bid b) }

/-- The per-entity effect of `PhysicsSyncSystem`: for an entity holding
`PhysicsBody`, `Position` and `Renderable` whose body handle is valid,
overwrite `Position` with the body transform (converted to pixels)
minus the half-sprite offset. -/
def syncComps (pw : PhysWorld) (c : EntityComps) : EntityComps :=
  if c.physicsBody.isSome ∧ c.position.isSome ∧ c.renderable.isSome then
    match pw.bodies ((c.physicsBody.getD ⟨0⟩).bodyId) with
    | none => c
    | some b =>
        let off := spriteOffset ((c.renderable.getD ⟨-1⟩).spriteID)
        { c with position := some ⟨b.posX * 50 - off.1, b.posY * 50 - off.2⟩ }
  else c

/-- `PhysicsSyncSystem` (gold_miner_ecs.cpp): each iteration reads the
(unmodified) physics world and writes only its own entity's `Position`,
so the loop is a pointwise map. -/
def PhysicsSyncSystem (s : GMState) : GMState :=
  { s with ents := fun i =>
      if i < s.numEnts then syncComps s.phys (s.ents i) else s.ents i }

/-- `CreateGold` (gold_miner_ecs.cpp): fresh entity id, a static body at
the sprite's center (pixels / 50), user-data back-reference installed,
and the gold component set with `Position{x, y}`. -/
def CreateGold (x y : ℚ) (s : GMState) : Nat × GMState :=
  let eid := s.numEnts
  let w := spriteSrcW 0
  let h := spriteSrcH 0
  let centerX := x + w / 2
  let centerY := y + h / 2
  let bid := s.phys.nextBodyId
  let body : Body :=
    { btype := BodyType.staticBody
      posX := centerX / 50
      posY := centerY / 50
      velX := 0
      velY := 0
      angVel := 0
      gravityScale := 1
      userData := some eid }
  let comps : EntityComps :=
    { position := some ⟨x, y⟩
      renderable := some ⟨0⟩
      collectable := true
      itemType := some ⟨ItemKind.gold⟩
      value := some ⟨70⟩
      weight := some ⟨5⟩
      collidable := true
      playerInfo := some ⟨-1⟩
      physicsBody := some ⟨bid⟩ }
  (eid,
    { s with
      numEnts := s.numEnts + 1
      ents := Function.update s.ents eid comps
      phys :=
        { s.phys with
          nextBodyId := bid + 1
          bodies := Function.update s.phys.bodies bid (some body) } })

/-- The player lookup shared by `CreateRope`, `RopeSwingSystem` and
`RopeExtensionSystem`: the first entity id (ascending) holding both
`Position` and `PlayerInfo` whose `playerID` matches. -/
def findPlayerIdx (s : GMState) (pid : Int) : Option Nat :=
  (List.range s.numEnts).find? (fun j =>
    (s.ents j).position.isSome && (s.ents j).playerInfo.isSome &&
      (((s.ents j).playerInfo.getD ⟨-1⟩).playerID == pid))

/-- `TryAttachCollectable` (gold_miner_ecs.cpp): no-op if the rope already
holds a `GrabbedJoint`; otherwise promote the collectable's body to
dynamic, create a weld joint (collision between the pair disabled),
record it in a new `GrabbedJoint` on the rope, force the rope state to
`Retracting` and zero the collectable's velocities. -/
def TryAttachCollectable (s : GMState) (rope collectable : Nat) : GMState :=
  if (s.ents rope).grabbedJoint.isSome then s
  else
    let ropeBid := ((s.ents rope).physicsBody.getD ⟨0⟩).bodyId
    let itemBid := ((s.ents collectable).physicsBody.getD ⟨0⟩).bodyId
    let s1 := withPhys s (setBodyType itemBid BodyType.dynamicBody)
    let jid := s1.phys.nextJointId
    let s2 := withPhys s1 (createWeldJoint ropeBid itemBid)
    let s3 := updComps s2 rope (fun c => { c with grabbedJoint := some ⟨jid, collectable⟩ })
    let s4 := updComps s3 rope (fun c =>
      { c with ropeControl := c.ropeControl.map (fun rc => { rc with state := RopeState.retracting }) })
    let s5 := withPhys s4 (setLinearVelocity itemBid 0 0)
    withPhys s5 (setAngularVelocity itemBid 0)

/-- One Box2D hit event of a frame, already resolved from shapes to the
two bodies (`b2Shape_GetBody` on `shapeIdA` / `shapeIdB`). -/
structure HitEvent where
  bodyIdA : Nat
  bodyIdB : Nat

/-- The per-event body of the `CollisionSystem` loop: resolve both
back-references (dropping the event if either is missing), then attach
rope-to-collectable only when the rope is not already holding. -/
def collisionStep (s : GMState) (hit : HitEvent) : GMState :=
  match userDataOf s.phys hit.bodyIdA, userDataOf s.phys hit.bodyIdB with
  | some entA, some entB =>
      let isRopeA := (s.ents entA).roperTag
      let isRopeB := (s.ents entB).roperTag
      let isCollectA := (s.ents entA).collectable
      let isCollectB := (s.ents entB).collectable
      if isRopeA && isCollectB && !(s.ents entA).grabbedJoint.isSome then
        TryAttachCollectable s entA entB
      else if isRopeB && isCollectA && !(s.ents entB).grabbedJoint.isSome then
        TryAttachCollectable s entB entA
      else s
  | _, _ => s

/-- `CollisionSystem` (gold_miner_ecs.cpp): fold the per-event handler
over the hit events reported for the most recent physics step. -/
def CollisionSystem (events : List HitEvent) (s : GMState) : GMState :=
  events.foldl collisionStep s

/-- `HandleRopeJointCleanup` (gold_miner_ecs.cpp): destroy the weld
joint, drop the rope's `GrabbedJoint`, and tag the formerly attached
item with `DestroyTag`. -/
def HandleRopeJointCleanup (s : GMState) (rope : Nat) : GMState :=
  if (s.ents rope).grabbedJoint.isSome then
    let g := (s.ents rope).grabbedJoint.getD ⟨0, 0⟩
    let s1 := withPhys s (destroyJoint g.joint)
    let s2 := updComps s1 rope (fun c => { c with grabbedJoint := none })
    updComps s2 g.attachedEntityId (fun c => { c with destroyTag := true })
  else s

/-- The joint-cleanup tail of each `RopeExtensionSystem` iteration: when
the (possibly just updated) rope state is `AtRest` and a `GrabbedJoint`
is still attached, release it and reset the rope body. -/
def cleanupPhase (s : GMState) (i bid : Nat) : GMState :=
  if ((s.ents i).ropeControl.getD ⟨RopeState.atRest⟩).state = RopeState.atRest ∧
      (s.ents i).grabbedJoint.isSome then
    let s1 := HandleRopeJointCleanup s i
    let s2 := withPhys s1 (setLinearVelocity bid 0 0)
    let s3 := withPhys s2 (setAngularVelocity bid 0)
    withPhys s3 (setGravityScale bid 0)
  else s

/-- The rope entity's Box2D body handle (`phys.bodyId`). -/
def bidOf (s : GMState) (i : Nat) : Nat := ((s.ents i).physicsBody.getD ⟨0⟩).bodyId

/-- `originX` of a rope iteration: the owner's x plus the winch offset
`-playerWidth * 0.001` (player sprite width 164). -/
def ropeOriginX (s : GMState) (p : Nat) : ℚ :=
  ((s.ents p).position.getD ⟨0, 0⟩).x + -(164 : ℚ) * (1 / 1000)

/-- `originY`: the owner's y plus the winch offset `playerHeight * 1.1`
(player sprite height 169). -/
def ropeOriginY (s : GMState) (p : Nat) : ℚ :=
  ((s.ents p).position.getD ⟨0, 0⟩).y + 169 * (11 / 10)

/-- `angleRad = rotation.angle * (M_PI / 180)`. -/
def ropeAngleRad (m : MathModel) (s : GMState) (i : Nat) : ℚ :=
  ((s.ents i).rotation.getD ⟨0⟩).angle * (m.pi / 180)

/-- The rope length read at the head of the iteration. -/
def ropeLen0 (s : GMState) (i : Nat) : ℚ := ((s.ents i).length.getD ⟨0⟩).value

/-- Target tip `tipX = originX + length * sin(angleRad)`. -/
def ropeTipX (m : MathModel) (s : GMState) (i p : Nat) : ℚ :=
  ropeOriginX s p + ropeLen0 s i * m.sin (ropeAngleRad m s i)

/-- Target tip `tipY = originY + length * cos(angleRad)`. -/
def ropeTipY (m : MathModel) (s : GMState) (i p : Nat) : ℚ :=
  ropeOriginY s p + ropeLen0 s i * m.cos (ropeAngleRad m s i)

/-- `direction.x = tipX / PPM - currentPos.x`. -/
def ropeDirX (m : MathModel) (s : GMState) (i p : Nat) : ℚ :=
  ropeTipX m s i p / 50 - (bodyPosOf s.phys (bidOf s i)).1

/-- `direction.y = tipY / PPM - currentPos.y`. -/
def ropeDirY (m : MathModel) (s : GMState) (i p : Nat) : ℚ :=
  ropeTipY m s i p / 50 - (bodyPosOf s.phys (bidOf s i)).2

/-- `dist = sqrt(direction.x² + direction.y²)`. -/
def ropeDist (m : MathModel) (s : GMState) (i p : Nat) : ℚ :=
  m.sqrt (ropeDirX m s i p * ropeDirX m s i p + ropeDirY m s i p * ropeDirY m s i p)

/-- The Extending-branch velocity drive: toward the target at speed
`EXTENSION_SPEED / PPM = 600 / 50 = 12`, or rest if closer than `0.01`.
All reads are from the pre-iteration state `s0`. -/
def extendDrive (m : MathModel) (s0 s : GMState) (i p : Nat) : GMState :=
  if ropeDist m s0 i p > 1 / 100 then
    withPhys s (setLinearVelocity (bidOf s0 i)
      (ropeDirX m s0 i p * (12 / ropeDist m s0 i p))
      (ropeDirY m s0 i p * (12 / ropeDist m s0 i p)))
  else withPhys s (setLinearVelocity (bidOf s0 i) 0 0)

/-- `retractDir.x = originX / PPM - currentPos.x`. -/
def retractDirX (s : GMState) (i p : Nat) : ℚ :=
  ropeOriginX s p / 50 - (bodyPosOf s.phys (bidOf s i)).1

/-- `retractDir.y = originY / PPM - currentPos.y`. -/
def retractDirY (s : GMState) (i p : Nat) : ℚ :=
  ropeOriginY s p / 50 - (bodyPosOf s.phys (bidOf s i)).2

/-- `retractDist = sqrt(retractDir.x² + retractDir.y²)`. -/
def retractDist (m : MathModel) (s : GMState) (i p : Nat) : ℚ :=
  m.sqrt (retractDirX s i p * retractDirX s i p + retractDirY s i p * retractDirY s i p)

/-- The Retracting-branch velocity drive back toward the origin at speed
`RETRACTION_SPEED / PPM = 900 / 50 = 18`, or rest if closer than `0.01`. -/
def retractDrive (m : MathModel) (s0 s : GMState) (i p : Nat) : GMState :=
  if retractDist m s0 i p > 1 / 100 then
    withPhys s (setLinearVelocity (bidOf s0 i)
      (retractDirX s0 i p * (18 / retractDist m s0 i p))
      (retractDirY s0 i p * (18 / retractDist m s0 i p)))
  else withPhys s (setLinearVelocity (bidOf s0 i) 0 0)

/-- The `AtRest`-with-pending-input head of the iteration: set the rope
state to `Extending` and consume (clear) the owner's `sendRope` flag. -/
def ropeConsumeInput (s : GMState) (i p : Nat) : GMState :=
  updComps
    (updComps s i (fun cc =>
      { cc with ropeControl := cc.ropeControl.map (fun _ => ⟨RopeState.extending⟩) }))
    p (fun pc =>
      { pc with playerInput := pc.playerInput.map (fun pin => { pin with sendRope := false }) })

/-- The guard of that head: rope at rest and `sendRope` pending. -/
def fireCond (s : GMState) (i p : Nat) : Prop :=
  ((s.ents i).ropeControl.getD ⟨RopeState.atRest⟩).state = RopeState.atRest ∧
    ((s.ents p).playerInput.getD ⟨false, false⟩).sendRope = true

instance (s : GMState) (i p : Nat) : Decidable (fireCond s i p) := by
  unfold fireCond; infer_instance

/-- The Extending-branch length update: `length += 10`, clamped to
`MAX_LENGTH = 800` with a transition to `Retracting` when exceeded. -/
def ropeExtendUpd (s : GMState) (i : Nat) (lenNew : ℚ) : GMState :=
  if lenNew > 800 then
    updComps s i (fun cc =>
      { cc with length := some ⟨800⟩
                ropeControl := cc.ropeControl.map (fun _ => ⟨RopeState.retracting⟩) })
  else
    updComps s i (fun cc => { cc with length := some ⟨lenNew⟩ })

/-- The Retracting-branch update when the length reaches `0`: clamp to
`0` and return to `AtRest`. -/
def ropeRetractZero (s : GMState) (i : Nat) : GMState :=
  updComps s i (fun cc =>
    { cc with length := some ⟨0⟩
              ropeControl := cc.ropeControl.map (fun _ => ⟨RopeState.atRest⟩) })

/-- Plain length write for the still-retracting case. -/
def ropeSetLen (s : GMState) (i : Nat) (lv : ℚ) : GMState :=
  updComps s i (fun cc => { cc with length := some ⟨lv⟩ })

/-- The state-machine tail of a `RopeExtensionSystem` iteration, after
input consumption decided the working state: length update, velocity
drive and joint cleanup.  `s0` is the pre-iteration state all numeric
reads come from; `s1` is the state after input consumption. -/
def ropeExtRun (m : MathModel) (s0 s1 : GMState) (i p : Nat) : RopeState → GMState
  | RopeState.extending =>
      cleanupPhase
        (extendDrive m s0 (ropeExtendUpd s1 i (ropeLen0 s0 i + 600 * (1 / 60))) i p)
        i (bidOf s0 i)
  | RopeState.retracting =>
      if ropeLen0 s0 i - 900 * (1 / 60) ≤ 0 then
        cleanupPhase (withPhys (ropeRetractZero s1 i) (setLinearVelocity (bidOf s0 i) 0 0))
          i (bidOf s0 i)
      else
        cleanupPhase
          (retractDrive m s0 (ropeSetLen s1 i (ropeLen0 s0 i - 900 * (1 / 60))) i p)
          i (bidOf s0 i)
  | RopeState.atRest =>
      cleanupPhase (withPhys s1 (setLinearVelocity (bidOf s0 i) 0 0)) i (bidOf s0 i)

/-- One iteration of the `RopeExtensionSystem` loop for entity `i`,
translated from gold_miner_ecs.cpp: mask check; owner lookup (the rope
is skipped when the owner is missing); input consumption
(`AtRest` + `sendRope` starts `Extending` and clears the flag); then the
extend/retract length state machine with clamping at `MAX_LENGTH = 800`
and `0`, the velocity drive toward the target tip, and the joint cleanup
once the rope rests.  `EXTENSION_SPEED * deltaTime = 600 / 60` and
`RETRACTION_SPEED * deltaTime = 900 / 60`. -/
def ropeExtStep (m : MathModel) (s : GMState) (i : Nat) : GMState :=
  if (s.ents i).roperTag && (s.ents i).ropeControl.isSome && (s.ents i).length.isSome &&
      (s.ents i).position.isSome && (s.ents i).playerInfo.isSome &&
      (s.ents i).physicsBody.isSome then
    match findPlayerIdx s (((s.ents i).playerInfo.getD ⟨-1⟩).playerID) with
    | none => s
    | some p =>
        if fireCond s i p then
          ropeExtRun m s (ropeConsumeInput s i p) i p RopeState.extending
        else
          ropeExtRun m s s i p (((s.ents i).ropeControl.getD ⟨RopeState.atRest⟩).state)
  else s

/-- `RopeExtensionSystem` (gold_miner_ecs.cpp): the loop over all live
entity ids in ascending order. -/
def RopeExtensionSystem (m : MathModel) (s : GMState) : GMState :=
  (List.range s.numEnts).foldl (ropeExtStep m) s

/-- The swing-angle step of `RopeSwingSystem`: previous angle plus
`direction * swingSpeed * deltaTime = direction * 90 / 60` where the
direction map is seeded with `1` on first sight. -/
def swingAngle1 (s : GMState) (i : Nat) : ℚ :=
  ((s.ents i).rotation.getD ⟨0⟩).angle + ((s.swingDirs i).getD 1) * 90 * (1 / 60)

/-- Angle clamped to `±maxSwingAngle = ±75` with direction reversal at
the bounds; returns (new angle, new direction). -/
def swingAD (s : GMState) (i : Nat) : ℚ × ℚ :=
  if swingAngle1 s i > 75 then (75, -1)
  else if swingAngle1 s i < -75 then (-75, 1)
  else (swingAngle1 s i, (s.swingDirs i).getD 1)

/-- Commit the new swing angle and direction for rope `i`. -/
def swingWrite (s : GMState) (i : Nat) : GMState :=
  { s with
    ents := Function.update s.ents i { s.ents i with rotation := some ⟨(swingAD s i).1⟩ }
    swingDirs := Function.update s.swingDirs i (some (swingAD s i).2) }

/-- Swing tip `tipX = originX + ropeLength * sin(angleRad)` with the
visible rope length `80`. -/
def swingTipX (m : MathModel) (s : GMState) (i p : Nat) : ℚ :=
  ropeOriginX s p + 80 * m.sin ((swingAD s i).1 * (m.pi / 180))

/-- Swing tip `tipY = originY + ropeLength * cos(angleRad)`. -/
def swingTipY (m : MathModel) (s : GMState) (i p : Nat) : ℚ :=
  ropeOriginY s p + 80 * m.cos ((swingAD s i).1 * (m.pi / 180))

/-- One iteration of the `RopeSwingSystem` loop for entity `i`,
translated from gold_miner_ecs.cpp: at rest the swing angle oscillates
between `±75` degrees (direction map seeded with `1`), then — owner
permitting — the body is teleported to the swing tip, its velocity
zeroed and gravity disabled; in any other state gravity is enabled
(scale `1`).  If the owner is missing the angle update still sticks. -/
def swingStep (m : MathModel) (s : GMState) (i : Nat) : GMState :=
  if (s.ents i).roperTag && (s.ents i).rotation.isSome && (s.ents i).ropeControl.isSome &&
      (s.ents i).physicsBody.isSome && (s.ents i).playerInfo.isSome then
    if ((s.ents i).ropeControl.getD ⟨RopeState.atRest⟩).state = RopeState.atRest then
      match findPlayerIdx s (((s.ents i).playerInfo.getD ⟨-1⟩).playerID) with
      | none => swingWrite s i
      | some p =>
          withPhys (swingWrite s i) (fun pw =>
            setGravityScale (bidOf s i) 0
              (setLinearVelocity (bidOf s i) 0 0
                (setBodyPos (bidOf s i) (swingTipX m s i p / 50) (swingTipY m s i p / 50) pw)))
    else withPhys s (setGravityScale (bidOf s i) 1)
  else s

/-- `RopeSwingSystem` (gold_miner_ecs.cpp): the loop over all live
entity ids in ascending order. -/
def RopeSwingSystem (m : MathModel) (s : GMState) : GMState :=
  (List.range s.numEnts).foldl (swingStep m) s

/-! ### Small observation helpers -/

/-- The rope-control state of entity `i`, if it holds `RopeControl`. -/
def stateAt (s : GMState) (i : Nat) : Option RopeState :=
  ((s.ents i).ropeControl).map (fun rc => rc.state)

/-- The rope length of entity `i`, if it holds `Length`. -/
def lenOf (s : GMState) (i : Nat) : Option ℚ :=
  ((s.ents i).length).map (fun l => l.value)

/-- The pending `sendRope` flag of the player owning rope `i` (false when
the owner is missing or holds no `PlayerInput`). -/
def flagOf (s : GMState) (i : Nat) : Bool :=
  match findPlayerIdx s (((s.ents i).playerInfo.getD ⟨-1⟩).playerID) with
  | some p => ((s.ents p).playerInput.getD ⟨false, false⟩).sendRope
  | none => false

/-- The gravity scale currently installed on body `b`. -/
def gravityOf (s : GMState) (b : Nat) : Option ℚ :=
  (s.phys.bodies b).map (fun bb => bb.gravityScale)

/-- The component mask required by the `RopeSwingSystem` loop. -/
def swingMask (c : EntityComps) : Prop :=
  c.roperTag = true ∧ c.rotation.isSome = true ∧ c.ropeControl.isSome = true ∧
    c.physicsBody.isSome = true ∧ c.playerInfo.isSome = true

instance : DecidablePred swingMask := fun c => by
  unfold swingMask; infer_instance

/-! ### Concrete worlds used as witnesses and counterexamples -/

def emptyPhys : PhysWorld := ⟨fun _ => none, fun _ => none, 0, 0⟩

def mkState (l : List EntityComps) (pw : PhysWorld) : GMState :=
  ⟨l.length, fun i => l.getD i emptyComps, pw, fun _ => none⟩

def w1 : GMState :=
  mkState [{ emptyComps with score := some ⟨5⟩, destroyTag := true }] emptyPhys

def wInput : GMState :=
  mkState [{ emptyComps with playerInput := some ⟨false, false⟩, playerInfo := some ⟨1⟩ }]
    emptyPhys

def body7 : Body :=
  { btype := BodyType.staticBody, posX := 2, posY := 3, velX := 0, velY := 0
    angVel := 0, gravityScale := 1, userData := some 0 }

def w2 : GMState :=
  mkState [{ emptyComps with physicsBody := some ⟨7⟩, destroyTag := true }]
    ⟨fun k => if k = 7 then some body7 else none, fun _ => none, 8, 0⟩

/-! ### Claim C10 — PlayerInputSystem semantics -/

/-- C10: a null event leaves the state untouched; otherwise every entity
holding `PlayerInput` gets `sendRope` overwritten with "this event is a
space key-down" (true for space key-down, false for every other event),
`retractRope` untouched, and entities without `PlayerInput` unchanged. -/
theorem C10_player_input (s : GMState) (e : SDLEvent) (i : Nat) (pin : PlayerInput)
    (hi : i < s.numEnts) (hp : (s.ents i).playerInput = some pin) :
    PlayerInputSystem none s = s ∧
    ((PlayerInputSystem (some e) s).ents i).playerInput =
      some ⟨decide (e.etype = SDL_EVENT_KEY_DOWN ∧ e.key = SDLK_SPACE), pin.retractRope⟩ ∧
    (∀ j, (s.ents j).playerInput = none →
      (PlayerInputSystem (some e) s).ents j = s.ents j) := by
  refine ⟨rfl, ?_, ?_⟩
  · simp [PlayerInputSystem, hi, hp]
  · intro j hj
    simp [PlayerInputSystem, hj]

theorem C10_player_input_witness :
    PlayerInputSystem none w1 = w1 ∧
    ((PlayerInputSystem (some ⟨768, 32⟩) wInput).ents 0).playerInput =
      some ⟨decide ((768:Nat) = SDL_EVENT_KEY_DOWN ∧ (32:Nat) = SDLK_SPACE), false⟩ ∧
    (∀ j, (wInput.ents j).playerInput = none →
      (PlayerInputSystem (some ⟨768, 32⟩) wInput).ents j = wInput.ents j) := by
  have h := C10_player_input wInput ⟨768, 32⟩ 0 ⟨false, false⟩ (by decide) (by decide)
  exact ⟨rfl, h.2.1, h.2.2⟩

/-! ### Claim C1 — destruction strips the enumerated component types only -/

/-- C1 fails as stated: an entity carrying `DestroyTag` and `Score` keeps
its `Score` after `DestructionSystem`, so its mask is not empty and
`has<Score>` is not absent. -/
theorem C1_counterexample :
    ((DestructionSystem w1).ents 0).score = some ⟨5⟩ ∧
    ¬ maskEmpty ((DestructionSystem w1).ents 0) := by
  decide

/-- C1 amended: `DestructionSystem` removes exactly the component types
enumerated in its body from each tagged entity; the mask becomes empty
precisely when the entity held nothing outside that enumeration, while
`Score`, `GameTimer`, `UIComponent`, `SoundEffect`, `Name`, `Health`,
`Mole`, `LifeTime` and `ScoredTag` survive untouched. -/
theorem C1_amended (s : GMState) (i : Nat) (hi : i < s.numEnts)
    (ht : (s.ents i).destroyTag = true) :
    (DestructionSystem s).ents i = destroyEntityComps (s.ents i) ∧
    (((s.ents i).score = none ∧ (s.ents i).gameTimer = none ∧
      (s.ents i).uiComponent = none ∧ (s.ents i).soundEffect = none ∧
      (s.ents i).name = none ∧ (s.ents i).health = none ∧
      (s.ents i).mole = none ∧ (s.ents i).lifeTime = none ∧
      (s.ents i).scoredTag = false) →
      maskEmpty ((DestructionSystem s).ents i)) := by
  constructor
  · simp [DestructionSystem, hi, ht]
  · rintro ⟨h1, h2, h3, h4, h5, h6, h7, h8, h9⟩
    simp only [DestructionSystem, hi, ht, and_self, if_true, true_and]
    unfold maskEmpty destroyEntityComps emptyComps
    cases hc : s.ents i
    rw [hc] at h1 h2 h3 h4 h5 h6 h7 h8 h9
    simp_all

theorem C1_amended_witness :
    (DestructionSystem w1).ents 0 = destroyEntityComps (w1.ents 0) ∧
    (((w1.ents 0).score = none ∧ (w1.ents 0).gameTimer = none ∧
      (w1.ents 0).uiComponent = none ∧ (w1.ents 0).soundEffect = none ∧
      (w1.ents 0).name = none ∧ (w1.ents 0).health = none ∧
      (w1.ents 0).mole = none ∧ (w1.ents 0).lifeTime = none ∧
      (w1.ents 0).scoredTag = false) →
      maskEmpty ((DestructionSystem w1).ents 0)) :=
  C1_amended w1 0 (by decide) (by decide)

/-! ### Claim C2 — no physics cleanup on destruction (code bug) -/

/-- C2: on the failing input (a tagged entity holding `PhysicsBody{7}`,
body `7` live with its heap back-reference) the destruction pass drops
the component but leaves the physics world — body and back-reference —
completely untouched: the cleanup the spec requires is commented out in
the source. -/
theorem C2_code_evaluation :
    ((DestructionSystem w2).ents 0).physicsBody = none ∧
    (DestructionSystem w2).phys = w2.phys ∧
    (DestructionSystem w2).phys.bodies 7 = some body7 ∧
    userDataOf (DestructionSystem w2).phys 7 = some 0 := by
  exact ⟨by decide, rfl, by decide, by decide⟩

/-! ### Claim C8 — idempotence of DestructionSystem -/

/-- C8: running `DestructionSystem` twice in a row with nothing added in
between is a no-op the second time: the first pass deleted every
`DestroyTag`, so the second pass selects no entity. -/
theorem C8_destruction_idempotent (s : GMState) :
    DestructionSystem (DestructionSystem s) = DestructionSystem s := by
  unfold DestructionSystem
  congr 1
  funext i
  by_cases hc : i < s.numEnts ∧ (s.ents i).destroyTag = true
  · simp [hc, destroyEntityComps]
  · simp only [eq_self_iff_true]
    rw [if_neg hc, if_neg hc]

/-! ### Claim C9 — CreateGold position round-trip -/

/-- C9: a collectable created at `(x, y)` reads back `Position = (x, y)`
immediately, and still after one physics step (its body is static, hence
immovable) followed by `PhysicsSyncSystem`: the center-based transform
minus the half-sprite offset round-trips to the top-left coordinate. -/
theorem C9_gold_roundtrip (x y : ℚ) (s : GMState) (f : Nat → Body → Body) :
    ((CreateGold x y s).2.ents (CreateGold x y s).1).position = some ⟨x, y⟩ ∧
    ((PhysicsSyncSystem (withPhys (CreateGold x y s).2 (stepWorld f))).ents
        (CreateGold x y s).1).position = some ⟨x, y⟩ := by
  constructor
  · simp [CreateGold]
  · simp only [CreateGold, PhysicsSyncSystem, withPhys, stepWorld,
      Function.update_same, Nat.lt_succ_self, if_true, lt_add_iff_pos_right,
      Nat.lt_one_iff]
    unfold syncComps
    simp [spriteOffset, spriteSrcW, spriteSrcH, Function.update_same]

/-! ### Collision pipeline lemmas and claims C5, C6 -/

/-- `TryAttachCollectable` never overwrites an existing `GrabbedJoint`:
any entity already holding one keeps exactly the same value. -/
theorem tryAttach_keeps_grabbed (s : GMState) (rope item i : Nat) (g : GrabbedJoint)
    (h : (s.ents i).grabbedJoint = some g) :
    ((TryAttachCollectable s rope item).ents i).grabbedJoint = some g := by
  unfold TryAttachCollectable
  by_cases hr : (s.ents rope).grabbedJoint.isSome
  · simp [hr, h]
  · have hri : i ≠ rope := by
      intro e; subst e; rw [h] at hr; simp at hr
    simp [hr, updComps, withPhys, Function.update_apply, hri, h]

/-- One collision-loop iteration never overwrites an existing
`GrabbedJoint`. -/
theorem collisionStep_keeps_grabbed (s : GMState) (hit : HitEvent) (i : Nat) (g : GrabbedJoint)
    (h : (s.ents i).grabbedJoint = some g) :
    ((collisionStep s hit).ents i).grabbedJoint = some g := by
  unfold collisionStep
  cases hA : userDataOf s.phys hit.bodyIdA with
  | none => simpa using h
  | some entA =>
    cases hB : userDataOf s.phys hit.bodyIdB with
    | none => simpa using h
    | some entB =>
      simp only
      split
      · exact tryAttach_keeps_grabbed s entA entB i g h
      · split
        · exact tryAttach_keeps_grabbed s entB entA i g h
        · exact h

/-- A whole frame of collision events never overwrites an existing
`GrabbedJoint`. -/
theorem collisionSystem_keeps_grabbed (events : List HitEvent) :
    ∀ (s : GMState) (i : Nat) (g : GrabbedJoint),
      (s.ents i).grabbedJoint = some g →
      ((CollisionSystem events s).ents i).grabbedJoint = some g := by
  induction events with
  | nil => intro s i g h; exact h
  | cons ev evs ih =>
      intro s i g h
      exact ih (collisionStep s ev) i g (collisionStep_keeps_grabbed s ev i g h)

/-- C5: a contact event pairing a rope that already carries a
`GrabbedJoint` with a collectable changes nothing at all — not the rope,
not the collectable, not the physics world — and across a whole frame of
events a held `GrabbedJoint` is never replaced. -/
theorem C5_single_grab (s : GMState) (hit : HitEvent) (rA cB : Nat)
    (hA : userDataOf s.phys hit.bodyIdA = some rA)
    (hB : userDataOf s.phys hit.bodyIdB = some cB)
    (_hrope : (s.ents rA).roperTag = true)
    (_hcol : (s.ents cB).collectable = true)
    (hheld : (s.ents rA).grabbedJoint.isSome = true)
    (hnotropeB : (s.ents cB).roperTag = false) :
    collisionStep s hit = s ∧
    (∀ (events : List HitEvent) (i : Nat) (g : GrabbedJoint),
      (s.ents i).grabbedJoint = some g →
      ((CollisionSystem events s).ents i).grabbedJoint = some g) := by
  constructor
  · unfold collisionStep
    rw [hA, hB]
    simp [hheld, hnotropeB]
  · intro events i g h
    exact collisionSystem_keeps_grabbed events s i g h

def ropeHeldComps : EntityComps :=
  { emptyComps with
    roperTag := true
    ropeControl := some ⟨RopeState.retracting⟩
    length := some ⟨300⟩
    position := some ⟨10, 10⟩
    rotation := some ⟨0⟩
    playerInfo := some ⟨1⟩
    physicsBody := some ⟨0⟩
    collidable := true
    grabbedJoint := some ⟨4, 2⟩ }

def goldStaticComps (bid : Nat) : EntityComps :=
  { emptyComps with
    collectable := true
    position := some ⟨100, 500⟩
    itemType := some ⟨ItemKind.gold⟩
    value := some ⟨70⟩
    weight := some ⟨5⟩
    collidable := true
    playerInfo := some ⟨-1⟩
    renderable := some ⟨0⟩
    physicsBody := some ⟨bid⟩ }

def w5 : GMState :=
  mkState [ropeHeldComps, goldStaticComps 1]
    ⟨fun k =>
      if k = 0 then some ⟨BodyType.dynamicBody, 0, 0, 0, 0, 0, 1, some 0⟩
      else if k = 1 then some ⟨BodyType.staticBody, 2, 10, 0, 0, 0, 1, some 1⟩
      else none,
     fun _ => none, 2, 5⟩

theorem C5_single_grab_witness :
    collisionStep w5 ⟨0, 1⟩ = w5 ∧
    (∀ (events : List HitEvent) (i : Nat) (g : GrabbedJoint),
      (w5.ents i).grabbedJoint = some g →
      ((CollisionSystem events w5).ents i).grabbedJoint = some g) :=
  C5_single_grab w5 ⟨0, 1⟩ 0 1 (by decide) (by decide) (by decide) (by decide)
    (by decide) (by decide)

/-- C6: a contact event pairing a free rope with a collectable attaches
it: the collectable's body becomes dynamic with zeroed velocities, a
fresh weld joint between the two bodies with `collideConnected = false`
is installed, the rope records `GrabbedJoint{joint, collectable}`, and
the rope state is forced to `Retracting` whatever its current length. -/
theorem C6_attach (s : GMState) (hit : HitEvent) (r c rb cb : Nat)
    (rc : RopeControl) (bodyC : Body)
    (hA : userDataOf s.phys hit.bodyIdA = some r)
    (hB : userDataOf s.phys hit.bodyIdB = some c)
    (hrope : (s.ents r).roperTag = true)
    (hcol : (s.ents c).collectable = true)
    (hfree : (s.ents r).grabbedJoint = none)
    (hrb : (s.ents r).physicsBody = some ⟨rb⟩)
    (hcb : (s.ents c).physicsBody = some ⟨cb⟩)
    (hbody : s.phys.bodies cb = some bodyC)
    (hrc : (s.ents r).ropeControl = some rc) :
    ((collisionStep s hit).ents r).grabbedJoint = some ⟨s.phys.nextJointId, c⟩ ∧
    ((collisionStep s hit).ents r).ropeControl = some ⟨RopeState.retracting⟩ ∧
    (collisionStep s hit).phys.joints s.phys.nextJointId = some ⟨rb, cb, false⟩ ∧
    (collisionStep s hit).phys.nextJointId = s.phys.nextJointId + 1 ∧
    (collisionStep s hit).phys.bodies cb =
      some { bodyC with btype := BodyType.dynamicBody, velX := 0, velY := 0, angVel := 0 } := by
  have hstep : collisionStep s hit = TryAttachCollectable s r c := by
    unfold collisionStep
    rw [hA, hB]
    simp [hrope, hcol, hfree]
  rw [hstep]
  unfold TryAttachCollectable
  simp only [hfree, Option.isSome_none, Bool.false_eq_true, if_false]
  refine ⟨?_, ?_, ?_, ?_, ?_⟩
  · simp [updComps, withPhys, setBodyType, createWeldJoint, setLinearVelocity,
      setAngularVelocity, Function.update_apply, hrb, hcb]
  · simp [updComps, withPhys, setBodyType, createWeldJoint, setLinearVelocity,
      setAngularVelocity, Function.update_apply, hrb, hcb, hrc]
  · simp [updComps, withPhys, setBodyType, createWeldJoint, setLinearVelocity,
      setAngularVelocity, Function.update_apply, hrb, hcb]
  · simp [updComps, withPhys, setBodyType, createWeldJoint, setLinearVelocity,
      setAngularVelocity, Function.update_apply, hrb, hcb]
  · simp [updComps, withPhys, setBodyType, createWeldJoint, setLinearVelocity,
      setAngularVelocity, Function.update_apply, hrb, hcb, hbody]

def ropeFreeComps : EntityComps :=
  { emptyComps with
    roperTag := true
    ropeControl := some ⟨RopeState.extending⟩
    length := some ⟨120⟩
    position := some ⟨10, 10⟩
    rotation := some ⟨0⟩
    playerInfo := some ⟨1⟩
    physicsBody := some ⟨0⟩
    collidable := true }

def goldBody : Body :=
  { btype := BodyType.staticBody, posX := 2, posY := 10, velX := 0, velY := 0
    angVel := 0, gravityScale := 1, userData := some 1 }

def w6 : GMState :=
  mkState [ropeFreeComps, goldStaticComps 1]
    ⟨fun k =>
      if k = 0 then some ⟨BodyType.dynamicBody, 0, 0, 0, 0, 0, 1, some 0⟩
      else if k = 1 then some goldBody
      else none,
     fun _ => none, 2, 5⟩

theorem C6_attach_witness :
    ((collisionStep w6 ⟨0, 1⟩).ents 0).grabbedJoint = some ⟨w6.phys.nextJointId, 1⟩ ∧
    ((collisionStep w6 ⟨0, 1⟩).ents 0).ropeControl = some ⟨RopeState.retracting⟩ ∧
    (collisionStep w6 ⟨0, 1⟩).phys.joints w6.phys.nextJointId = some ⟨0, 1, false⟩ ∧
    (collisionStep w6 ⟨0, 1⟩).phys.nextJointId = w6.phys.nextJointId + 1 ∧
    (collisionStep w6 ⟨0, 1⟩).phys.bodies 1 =
      some { goldBody with btype := BodyType.dynamicBody, velX := 0, velY := 0, angVel := 0 } :=
  C6_attach w6 ⟨0, 1⟩ 0 1 0 1 ⟨RopeState.extending⟩ goldBody (by decide) (by decide)
    (by decide) (by decide) (by decide) (by decide) (by decide) (by decide) (by decide)

/-! ### Claim C3 — rope state machine (counterexample) -/

def w3 : GMState :=
  mkState [{ ropeFreeComps with ropeControl := some ⟨RopeState.atRest⟩, length := some ⟨0⟩ },
           goldStaticComps 1]
    ⟨fun k =>
      if k = 0 then some ⟨BodyType.dynamicBody, 0, 0, 0, 0, 0, 1, some 0⟩
      else if k = 1 then some goldBody
      else none,
     fun _ => none, 2, 5⟩

/-- C3 fails as stated: a rope at rest whose player has no pending
`sendRope` flag (here nobody holds `PlayerInput` at all) is moved
straight from `AtRest` to `Retracting` by `CollisionSystem` when a
contact event pairs it with a collectable — a transition the claimed
state machine does not admit. -/
theorem C3_counterexample :
    stateAt w3 0 = some RopeState.atRest ∧
    (w3.ents 0).playerInput = none ∧
    (w3.ents 1).playerInput = none ∧
    stateAt (CollisionSystem [⟨0, 1⟩] w3) 0 = some RopeState.retracting := by
  decide

/-! ### Generic list utilities for the ascending-id system loops -/

theorem find_eq_of_agree {p q : Nat → Bool} :
    ∀ (l : List Nat), (∀ a, a ∈ l → p a = q a) → l.find? p = l.find? q := by
  intro l
  induction l with
  | nil => intro _; rfl
  | cons x xs ih =>
      intro h
      have hx := h x (List.mem_cons_self x xs)
      simp only [List.find?]
      rw [hx]
      cases q x with
      | true => rfl
      | false => exact ih (fun a ha => h a (List.mem_cons_of_mem x ha))

theorem range_split (n i : Nat) (h : i < n) :
    List.range n = List.range i ++ i :: List.range' (i + 1) (n - i - 1) := by
  rw [List.range_eq_range', List.range_eq_range']
  have happ := List.range'_append 0 i (n - i) 1
  simp only [Nat.zero_add, Nat.one_mul] at happ
  have hn : n - i + i = n := by omega
  rw [hn] at happ
  rw [← happ]
  congr 1
  rw [show n - i = (n - i - 1) + 1 from by omega, List.range'_succ]
  simp

/-! ### Locality lemmas for the rope-extension loop -/

/-- `cleanupPhase` touches only `GrabbedJoint` and `DestroyTag` fields,
so `position` is preserved at every entity. -/
theorem cleanupPhase_position (s : GMState) (i bid j : Nat) :
    ((cleanupPhase s i bid).ents j).position = (s.ents j).position := by
  unfold cleanupPhase HandleRopeJointCleanup
  split
  · split
    · simp only [updComps, withPhys, Function.update_apply]
      split_ifs <;> simp_all
    · rfl
  · rfl

/-- `cleanupPhase` touches only `GrabbedJoint` and `DestroyTag` fields,
so `playerInfo` is preserved at every entity. -/
theorem cleanupPhase_playerInfo (s : GMState) (i bid j : Nat) :
    ((cleanupPhase s i bid).ents j).playerInfo = (s.ents j).playerInfo := by
  unfold cleanupPhase HandleRopeJointCleanup
  split
  · split
    · simp only [updComps, withPhys, Function.update_apply]
      split_ifs <;> simp_all
    · rfl
  · rfl

/-- `cleanupPhase` touches only `GrabbedJoint` and `DestroyTag` fields,
so `roperTag` is preserved at every entity. -/
theorem cleanupPhase_roperTag (s : GMState) (i bid j : Nat) :
    ((cleanupPhase s i bid).ents j).roperTag = (s.ents j).roperTag := by
  unfold cleanupPhase HandleRopeJointCleanup
  split
  · split
    · simp only [updComps, withPhys, Function.update_apply]
      split_ifs <;> simp_all
    · rfl
  · rfl

/-- `cleanupPhase` touches only `GrabbedJoint` and `DestroyTag` fields,
so `physicsBody` is preserved at every entity. -/
theorem cleanupPhase_physicsBody (s : GMState) (i bid j : Nat) :
    ((cleanupPhase s i bid).ents j).physicsBody = (s.ents j).physicsBody := by
  unfold cleanupPhase HandleRopeJointCleanup
  split
  · split
    · simp only [updComps, withPhys, Function.update_apply]
      split_ifs <;> simp_all
    · rfl
  · rfl

/-- `cleanupPhase` touches only `GrabbedJoint` and `DestroyTag` fields,
so `rotation` is preserved at every entity. -/
theorem cleanupPhase_rotation (s : GMState) (i bid j : Nat) :
    ((cleanupPhase s i bid).ents j).rotation = (s.ents j).rotation := by
  unfold cleanupPhase HandleRopeJointCleanup
  split
  · split
    · simp only [updComps, withPhys, Function.update_apply]
      split_ifs <;> simp_all
    · rfl
  · rfl

/-- `cleanupPhase` touches only `GrabbedJoint` and `DestroyTag` fields,
so `ropeControl` is preserved at every entity. -/
theorem cleanupPhase_ropeControl (s : GMState) (i bid j : Nat) :
    ((cleanupPhase s i bid).ents j).ropeControl = (s.ents j).ropeControl := by
  unfold cleanupPhase HandleRopeJointCleanup
  split
  · split
    · simp only [updComps, withPhys, Function.update_apply]
      split_ifs <;> simp_all
    · rfl
  · rfl

/-- `cleanupPhase` touches only `GrabbedJoint` and `DestroyTag` fields,
so `length` is preserved at every entity. -/
theorem cleanupPhase_length (s : GMState) (i bid j : Nat) :
    ((cleanupPhase s i bid).ents j).length = (s.ents j).length := by
  unfold cleanupPhase HandleRopeJointCleanup
  split
  · split
    · simp only [updComps, withPhys, Function.update_apply]
      split_ifs <;> simp_all
    · rfl
  · rfl

/-- `cleanupPhase` touches only `GrabbedJoint` and `DestroyTag` fields,
so `playerInput` is preserved at every entity. -/
theorem cleanupPhase_playerInput (s : GMState) (i bid j : Nat) :
    ((cleanupPhase s i bid).ents j).playerInput = (s.ents j).playerInput := by
  unfold cleanupPhase HandleRopeJointCleanup
  split
  · split
    · simp only [updComps, withPhys, Function.update_apply]
      split_ifs <;> simp_all
    · rfl
  · rfl

theorem cleanupPhase_numEnts (s : GMState) (i bid : Nat) :
    (cleanupPhase s i bid).numEnts = s.numEnts := by
  unfold cleanupPhase HandleRopeJointCleanup
  split
  · split <;> rfl
  · rfl
theorem updComps_ents (s : GMState) (i : Nat) (f : EntityComps → EntityComps) (j : Nat) :
    (updComps s i f).ents j = if j = i then f (s.ents i) else s.ents j := by
  simp [updComps, Function.update_apply]

theorem withPhys_ents (s : GMState) (f : PhysWorld → PhysWorld) : (withPhys s f).ents = s.ents :=
  rfl

theorem withPhys_numEnts (s : GMState) (f : PhysWorld → PhysWorld) :
    (withPhys s f).numEnts = s.numEnts := rfl

theorem updComps_numEnts (s : GMState) (i : Nat) (f : EntityComps → EntityComps) :
    (updComps s i f).numEnts = s.numEnts := rfl

theorem extendDrive_ents (m : MathModel) (s0 s : GMState) (i p : Nat) :
    (extendDrive m s0 s i p).ents = s.ents := by
  unfold extendDrive
  split_ifs <;> rfl

theorem retractDrive_ents (m : MathModel) (s0 s : GMState) (i p : Nat) :
    (retractDrive m s0 s i p).ents = s.ents := by
  unfold retractDrive
  split_ifs <;> rfl

theorem extendDrive_numEnts (m : MathModel) (s0 s : GMState) (i p : Nat) :
    (extendDrive m s0 s i p).numEnts = s.numEnts := by
  unfold extendDrive
  split_ifs <;> rfl

theorem retractDrive_numEnts (m : MathModel) (s0 s : GMState) (i p : Nat) :
    (retractDrive m s0 s i p).numEnts = s.numEnts := by
  unfold retractDrive
  split_ifs <;> rfl

/-- The state-machine tail only writes the rope's `RopeControl`,
`Length`, `GrabbedJoint` and the released item's `DestroyTag`; every
other component projection is preserved relative to `s1`. -/
theorem ropeExtRun_ents (m : MathModel) (s0 s1 : GMState) (i p : Nat) (st : RopeState) (j : Nat) :
    ((ropeExtRun m s0 s1 i p st).ents j).position = (s1.ents j).position ∧
    ((ropeExtRun m s0 s1 i p st).ents j).playerInfo = (s1.ents j).playerInfo ∧
    ((ropeExtRun m s0 s1 i p st).ents j).roperTag = (s1.ents j).roperTag ∧
    ((ropeExtRun m s0 s1 i p st).ents j).physicsBody = (s1.ents j).physicsBody ∧
    ((ropeExtRun m s0 s1 i p st).ents j).rotation = (s1.ents j).rotation ∧
    ((ropeExtRun m s0 s1 i p st).ents j).playerInput = (s1.ents j).playerInput ∧
    (j ≠ i → ((ropeExtRun m s0 s1 i p st).ents j).ropeControl = (s1.ents j).ropeControl ∧
             ((ropeExtRun m s0 s1 i p st).ents j).length = (s1.ents j).length) := by
  cases st <;>
    refine ⟨?_, ?_, ?_, ?_, ?_, ?_, fun hij => ⟨?_, ?_⟩⟩ <;>
    simp_all [ropeExtRun, cleanupPhase_position, cleanupPhase_playerInfo,
      cleanupPhase_roperTag, cleanupPhase_physicsBody, cleanupPhase_rotation,
      cleanupPhase_ropeControl, cleanupPhase_length, cleanupPhase_playerInput,
      extendDrive_ents, retractDrive_ents, withPhys_ents, ropeExtendUpd,
      ropeRetractZero, ropeSetLen, updComps_ents, apply_ite, ite_apply]

theorem ropeExtRun_numEnts (m : MathModel) (s0 s1 : GMState) (i p : Nat) (st : RopeState) :
    (ropeExtRun m s0 s1 i p st).numEnts = s1.numEnts := by
  cases st <;>
    simp_all [ropeExtRun, cleanupPhase_numEnts, extendDrive_numEnts, retractDrive_numEnts,
      withPhys_numEnts, ropeExtendUpd, ropeRetractZero, ropeSetLen, updComps_numEnts,
      apply_ite, ite_apply]

/-- Input consumption only flips the owner's `sendRope` flag and the
rope's `RopeControl` state; everything else is preserved. -/
theorem ropeConsumeInput_ents (s : GMState) (i p j : Nat) :
    ((ropeConsumeInput s i p).ents j).position = (s.ents j).position ∧
    ((ropeConsumeInput s i p).ents j).playerInfo = (s.ents j).playerInfo ∧
    ((ropeConsumeInput s i p).ents j).roperTag = (s.ents j).roperTag ∧
    ((ropeConsumeInput s i p).ents j).physicsBody = (s.ents j).physicsBody ∧
    ((ropeConsumeInput s i p).ents j).rotation = (s.ents j).rotation ∧
    ((ropeConsumeInput s i p).ents j).length = (s.ents j).length ∧
    ((ropeConsumeInput s i p).ents j).playerInput.isSome = (s.ents j).playerInput.isSome ∧
    (j ≠ i → ((ropeConsumeInput s i p).ents j).ropeControl = (s.ents j).ropeControl) := by
  refine ⟨?_, ?_, ?_, ?_, ?_, ?_, ?_, fun hij => ?_⟩ <;>
    simp only [ropeConsumeInput, updComps_ents] <;>
    split_ifs <;> simp_all

theorem ropeConsumeInput_numEnts (s : GMState) (i p : Nat) :
    (ropeConsumeInput s i p).numEnts = s.numEnts := rfl

/-- One `RopeExtensionSystem` iteration for entity `k` only writes: the
rope entity's `RopeControl`, `Length` and `GrabbedJoint`, the owner's
`PlayerInput`, and the released item's `DestroyTag`.  In particular
`Position`, `PlayerInfo`, `RoperTag`, `PhysicsBody` and `Rotation` are
preserved everywhere, `PlayerInput` stays present or absent as it was,
and `RopeControl`/`Length` are preserved at every other entity. -/
theorem ropeExtStep_obs (m : MathModel) (s : GMState) (k j : Nat) :
    ((ropeExtStep m s k).ents j).position = (s.ents j).position ∧
    ((ropeExtStep m s k).ents j).playerInfo = (s.ents j).playerInfo ∧
    ((ropeExtStep m s k).ents j).roperTag = (s.ents j).roperTag ∧
    ((ropeExtStep m s k).ents j).physicsBody = (s.ents j).physicsBody ∧
    ((ropeExtStep m s k).ents j).rotation = (s.ents j).rotation ∧
    ((ropeExtStep m s k).ents j).playerInput.isSome = (s.ents j).playerInput.isSome ∧
    (j ≠ k → ((ropeExtStep m s k).ents j).ropeControl = (s.ents j).ropeControl ∧
             ((ropeExtStep m s k).ents j).length = (s.ents j).length) := by
  unfold ropeExtStep
  split
  · split
    · exact ⟨rfl, rfl, rfl, rfl, rfl, rfl, fun _ => ⟨rfl, rfl⟩⟩
    · rename_i p hp
      split
      · obtain ⟨r1, r2, r3, r4, r5, r6, r7⟩ :=
          ropeExtRun_ents m s (ropeConsumeInput s k p) k p RopeState.extending j
        obtain ⟨c1, c2, c3, c4, c5, c6, c7, c8⟩ := ropeConsumeInput_ents s k p j
        refine ⟨r1.trans c1, r2.trans c2, r3.trans c3, r4.trans c4, r5.trans c5, ?_, ?_⟩
        · rw [r6, c7]
        · intro hjk
          exact ⟨(r7 hjk).1.trans (c8 hjk), (r7 hjk).2.trans c6⟩
      · obtain ⟨r1, r2, r3, r4, r5, r6, r7⟩ :=
          ropeExtRun_ents m s s k p (((s.ents k).ropeControl.getD ⟨RopeState.atRest⟩).state) j
        exact ⟨r1, r2, r3, r4, r5, congrArg Option.isSome r6, r7⟩
  · exact ⟨rfl, rfl, rfl, rfl, rfl, rfl, fun _ => ⟨rfl, rfl⟩⟩

theorem ropeExtStep_numEnts (m : MathModel) (s : GMState) (k : Nat) :
    (ropeExtStep m s k).numEnts = s.numEnts := by
  unfold ropeExtStep
  split
  · split
    · rfl
    · rename_i p hp
      split
      · rw [ropeExtRun_numEnts, ropeConsumeInput_numEnts]
      · rw [ropeExtRun_numEnts]
  · rfl

/-! ### Self-effect of a rope-extension iteration -/

theorem ropeExtRun_self_extending (m : MathModel) (s0 s1 : GMState) (i p : Nat) :
    (ropeLen0 s0 i + 600 * (1 / 60) > 800 →
      ((ropeExtRun m s0 s1 i p RopeState.extending).ents i).length = some ⟨800⟩ ∧
      ((ropeExtRun m s0 s1 i p RopeState.extending).ents i).ropeControl =
        (s1.ents i).ropeControl.map (fun _ => ⟨RopeState.retracting⟩)) ∧
    (¬ ropeLen0 s0 i + 600 * (1 / 60) > 800 →
      ((ropeExtRun m s0 s1 i p RopeState.extending).ents i).length =
        some ⟨ropeLen0 s0 i + 600 * (1 / 60)⟩ ∧
      ((ropeExtRun m s0 s1 i p RopeState.extending).ents i).ropeControl =
        (s1.ents i).ropeControl) := by
  refine ⟨fun h => ⟨?_, ?_⟩, fun h => ⟨?_, ?_⟩⟩ <;>
    simp only [ropeExtRun, cleanupPhase_length, cleanupPhase_ropeControl, extendDrive_ents,
      ropeExtendUpd] <;>
    split_ifs with hc <;>
    first
      | exact absurd h hc
      | exact absurd hc h
      | simp [updComps_ents]

theorem ropeExtRun_self_retracting (m : MathModel) (s0 s1 : GMState) (i p : Nat) :
    (ropeLen0 s0 i - 900 * (1 / 60) ≤ 0 →
      ((ropeExtRun m s0 s1 i p RopeState.retracting).ents i).length = some ⟨0⟩ ∧
      ((ropeExtRun m s0 s1 i p RopeState.retracting).ents i).ropeControl =
        (s1.ents i).ropeControl.map (fun _ => ⟨RopeState.atRest⟩)) ∧
    (¬ ropeLen0 s0 i - 900 * (1 / 60) ≤ 0 →
      ((ropeExtRun m s0 s1 i p RopeState.retracting).ents i).length =
        some ⟨ropeLen0 s0 i - 900 * (1 / 60)⟩ ∧
      ((ropeExtRun m s0 s1 i p RopeState.retracting).ents i).ropeControl =
        (s1.ents i).ropeControl) := by
  refine ⟨fun h => ⟨?_, ?_⟩, fun h => ⟨?_, ?_⟩⟩ <;>
    simp only [ropeExtRun] <;>
    split_ifs with hc <;>
    first
      | exact absurd h hc
      | exact absurd hc h
      | simp [cleanupPhase_length, cleanupPhase_ropeControl, retractDrive_ents,
          ropeRetractZero, ropeSetLen, withPhys_ents, updComps_ents]

theorem ropeExtRun_self_atRest (m : MathModel) (s0 s1 : GMState) (i p : Nat) :
    ((ropeExtRun m s0 s1 i p RopeState.atRest).ents i).length = (s1.ents i).length ∧
    ((ropeExtRun m s0 s1 i p RopeState.atRest).ents i).ropeControl =
      (s1.ents i).ropeControl := by
  constructor <;>
    simp [ropeExtRun, cleanupPhase_length, cleanupPhase_ropeControl, withPhys_ents]

/-! ### Claim C4 — the length invariant -/

/-- One iteration preserves `0 ≤ Length ≤ 800` for every entity. -/
theorem ropeExtStep_len_bounds (m : MathModel) (s : GMState) (k i : Nat)
    (h : ∀ v : ℚ, lenOf s i = some v → 0 ≤ v ∧ v ≤ 800) :
    ∀ v : ℚ, lenOf (ropeExtStep m s k) i = some v → 0 ≤ v ∧ v ≤ 800 := by
  by_cases hik : i = k
  · subst hik
    intro v hv
    rw [lenOf] at hv
    unfold ropeExtStep at hv
    by_cases hmask : ((s.ents i).roperTag && (s.ents i).ropeControl.isSome &&
        (s.ents i).length.isSome && (s.ents i).position.isSome &&
        (s.ents i).playerInfo.isSome && (s.ents i).physicsBody.isSome) = true
    swap
    · rw [if_neg hmask] at hv
      exact h v (by rw [lenOf]; exact hv)
    rw [if_pos hmask] at hv
    have hlen : (s.ents i).length.isSome = true := by
      simp only [Bool.and_eq_true] at hmask
      exact hmask.1.1.1.2
    obtain ⟨L, hL⟩ := Option.isSome_iff_exists.mp hlen
    have hlb := h L.value (by rw [lenOf, hL]; rfl)
    have hlv : ropeLen0 s i = L.value := by rw [ropeLen0, hL]; rfl
    cases hfp : findPlayerIdx s (((s.ents i).playerInfo.getD ⟨-1⟩).playerID) with
    | none =>
        simp only [hfp] at hv
        exact h v (by rw [lenOf]; exact hv)
    | some p =>
        simp only [hfp] at hv
        by_cases hfire : fireCond s i p
        · rw [if_pos hfire] at hv
          by_cases hcl : ropeLen0 s i + 600 * (1 / 60) > 800
          · rw [((ropeExtRun_self_extending m s (ropeConsumeInput s i p) i p).1 hcl).1] at hv
            simp only [Option.map_some', Option.some.injEq] at hv
            subst hv
            norm_num
          · rw [((ropeExtRun_self_extending m s (ropeConsumeInput s i p) i p).2 hcl).1] at hv
            simp only [Option.map_some', Option.some.injEq] at hv
            subst hv
            rw [hlv] at hcl ⊢
            refine ⟨by linarith [hlb.1], by linarith [not_lt.mp hcl]⟩
        · rw [if_neg hfire] at hv
          cases hst : ((s.ents i).ropeControl.getD ⟨RopeState.atRest⟩).state with
          | extending =>
              rw [hst] at hv
              by_cases hcl : ropeLen0 s i + 600 * (1 / 60) > 800
              · rw [((ropeExtRun_self_extending m s s i p).1 hcl).1] at hv
                simp only [Option.map_some', Option.some.injEq] at hv
                subst hv
                norm_num
              · rw [((ropeExtRun_self_extending m s s i p).2 hcl).1] at hv
                simp only [Option.map_some', Option.some.injEq] at hv
                subst hv
                rw [hlv] at hcl ⊢
                refine ⟨by linarith [hlb.1], by linarith [not_lt.mp hcl]⟩
          | retracting =>
              rw [hst] at hv
              by_cases hcl : ropeLen0 s i - 900 * (1 / 60) ≤ 0
              · rw [((ropeExtRun_self_retracting m s s i p).1 hcl).1] at hv
                simp only [Option.map_some', Option.some.injEq] at hv
                subst hv
                norm_num
              · rw [((ropeExtRun_self_retracting m s s i p).2 hcl).1] at hv
                simp only [Option.map_some', Option.some.injEq] at hv
                subst hv
                rw [hlv] at hcl ⊢
                refine ⟨by linarith [not_le.mp hcl], by linarith [hlb.2]⟩
          | atRest =>
              rw [hst] at hv
              rw [(ropeExtRun_self_atRest m s s i p).1] at hv
              exact h v (by rw [lenOf]; exact hv)
  · intro v hv
    rw [lenOf, ((ropeExtStep_obs m s k i).2.2.2.2.2.2 hik).2] at hv
    exact h v (by rw [lenOf]; exact hv)

/-- C4: if `0 ≤ Length.value ≤ MAX_LENGTH = 800` holds for an entity
before `RopeExtensionSystem` runs, it still holds afterwards, whatever
the rope's state. -/
theorem C4_length_invariant (m : MathModel) (s : GMState) (i : Nat)
    (h : ∀ v : ℚ, lenOf s i = some v → 0 ≤ v ∧ v ≤ 800) :
    ∀ v : ℚ, lenOf (RopeExtensionSystem m s) i = some v → 0 ≤ v ∧ v ≤ 800 := by
  unfold RopeExtensionSystem
  generalize List.range s.numEnts = l
  induction l generalizing s with
  | nil => exact h
  | cons k l ih =>
      simp only [List.foldl_cons]
      exact ih (ropeExtStep m s k) (ropeExtStep_len_bounds m s k i h)

def mZero : MathModel := ⟨fun _ => 0, fun _ => 0, fun _ => 0, 0⟩

theorem ropeExtStep_not_rope (m : MathModel) (s : GMState) (k : Nat)
    (h : (s.ents k).roperTag = false) : ropeExtStep m s k = s := by
  unfold ropeExtStep
  rw [if_neg (by simp [h])]

theorem C4_length_invariant_witness :
    lenOf (RopeExtensionSystem mZero w6) 0 = some 130 ∧ ((0 : ℚ) ≤ 130 ∧ (130 : ℚ) ≤ 800) := by
  have hfp : findPlayerIdx w6 (((w6.ents 0).playerInfo.getD ⟨-1⟩).playerID) = some 0 := by
    decide
  have hnf : ¬ fireCond w6 0 0 := by decide
  have hstep0 : ropeExtStep mZero w6 0 = ropeExtRun mZero w6 w6 0 0 RopeState.extending := by
    unfold ropeExtStep
    rw [if_pos (by decide)]
    simp only [hfp]
    rw [if_neg hnf, show (w6.ents 0).ropeControl = some ⟨RopeState.extending⟩ from by decide]
    rfl
  have hrt : ((ropeExtStep mZero w6 0).ents 1).roperTag = false := by
    rw [(ropeExtStep_obs mZero w6 0 1).2.2.1]
    decide
  have hstep1 : ropeExtStep mZero (ropeExtStep mZero w6 0) 1 = ropeExtStep mZero w6 0 :=
    ropeExtStep_not_rope mZero (ropeExtStep mZero w6 0) 1 hrt
  have hcl : ¬ ropeLen0 w6 0 + 600 * (1 / 60) > 800 := by
    rw [show ropeLen0 w6 0 = 120 from by decide]
    norm_num
  have hlen0 : lenOf (ropeExtStep mZero w6 0) 0 = some 130 := by
    rw [lenOf, hstep0, ((ropeExtRun_self_extending mZero w6 w6 0 0).2 hcl).1,
      show ropeLen0 w6 0 = 120 from by decide]
    simp only [Option.map_some', Option.some.injEq]
    norm_num
  have hfold : RopeExtensionSystem mZero w6 = ropeExtStep mZero (ropeExtStep mZero w6 0) 1 := by
    rw [RopeExtensionSystem, show List.range w6.numEnts = [0, 1] from rfl]
    rfl
  have hlen : lenOf (RopeExtensionSystem mZero w6) 0 = some 130 := by
    rw [hfold, hstep1, hlen0]
  exact ⟨hlen,
    C4_length_invariant mZero w6 0
      (fun v hv => by
        have h120 : lenOf w6 0 = some (120 : ℚ) := by decide
        rw [h120] at hv
        rw [← Option.some.inj hv]
        decide)
      130 hlen⟩

/-! ### Claim C3 (amended) — the transition relation actually implemented -/

theorem ropeConsumeInput_self (s : GMState) (i p : Nat) :
    ((ropeConsumeInput s i p).ents i).ropeControl =
      (s.ents i).ropeControl.map (fun _ => ⟨RopeState.extending⟩) ∧
    ((ropeConsumeInput s i p).ents p).playerInput =
      (s.ents p).playerInput.map (fun pin => { pin with sendRope := false }) := by
  constructor <;>
    simp only [ropeConsumeInput, updComps_ents] <;>
    split_ifs <;> simp_all

theorem findPlayerIdx_ropeExtStep (m : MathModel) (s : GMState) (k : Nat) (pid : Int) :
    findPlayerIdx (ropeExtStep m s k) pid = findPlayerIdx s pid := by
  unfold findPlayerIdx
  rw [ropeExtStep_numEnts]
  apply find_eq_of_agree
  intro a _
  rw [(ropeExtStep_obs m s k a).1, (ropeExtStep_obs m s k a).2.1]

/-- C3 amended per the code: (1) processing any other entity never moves
rope `i`'s state; (2) one `RopeExtensionSystem` iteration for rope `i`
either leaves the state unchanged, or — from `AtRest`, only with the
owner's `sendRope` flag set, the flag being consumed — moves to
`Extending` (or straight to `Retracting` when the incremented length
already exceeds `MAX_LENGTH = 800`), or moves `Extending` to
`Retracting` exactly when the length clamps at `800`, or moves
`Retracting` to `AtRest` exactly when the length clamps at `0`; and (3)
`TryAttachCollectable` forces any rope without a `GrabbedJoint` to
`Retracting` — from any state, `AtRest` included, which is the
transition the original claim misses. -/
theorem C3_amended (m : MathModel) (s : GMState) (i : Nat) :
    (∀ j, j ≠ i → stateAt (ropeExtStep m s j) i = stateAt s i) ∧
    (stateAt (ropeExtStep m s i) i = stateAt s i ∨
      (stateAt s i = some RopeState.atRest ∧ flagOf s i = true ∧
        flagOf (ropeExtStep m s i) i = false ∧
        ((stateAt (ropeExtStep m s i) i = some RopeState.extending ∧
          lenOf (ropeExtStep m s i) i = some (ropeLen0 s i + 600 * (1 / 60))) ∨
         (stateAt (ropeExtStep m s i) i = some RopeState.retracting ∧
          lenOf (ropeExtStep m s i) i = some 800))) ∨
      (stateAt s i = some RopeState.extending ∧
        stateAt (ropeExtStep m s i) i = some RopeState.retracting ∧
        lenOf (ropeExtStep m s i) i = some 800) ∨
      (stateAt s i = some RopeState.retracting ∧
        stateAt (ropeExtStep m s i) i = some RopeState.atRest ∧
        lenOf (ropeExtStep m s i) i = some 0)) ∧
    (∀ (t : GMState) (rope item : Nat) (rc : RopeControl),
      (t.ents rope).grabbedJoint = none → (t.ents rope).ropeControl = some rc →
      stateAt (TryAttachCollectable t rope item) rope = some RopeState.retracting) := by
  refine ⟨?_, ?_, ?_⟩
  · intro j hj
    rw [stateAt, stateAt, ((ropeExtStep_obs m s j i).2.2.2.2.2.2 (Ne.symm hj)).1]
  · by_cases hmask : ((s.ents i).roperTag && (s.ents i).ropeControl.isSome &&
        (s.ents i).length.isSome && (s.ents i).position.isSome &&
        (s.ents i).playerInfo.isSome && (s.ents i).physicsBody.isSome) = true
    swap
    · have hstep : ropeExtStep m s i = s := by
        unfold ropeExtStep; rw [if_neg hmask]
      left; rw [hstep]
    have hrcs : (s.ents i).ropeControl.isSome = true := by
      simp only [Bool.and_eq_true] at hmask
      exact hmask.1.1.1.1.2
    obtain ⟨rc, hrc⟩ := Option.isSome_iff_exists.mp hrcs
    cases hfp : findPlayerIdx s (((s.ents i).playerInfo.getD ⟨-1⟩).playerID) with
    | none =>
        have hstep : ropeExtStep m s i = s := by
          unfold ropeExtStep; rw [if_pos hmask]; simp only [hfp]
        left; rw [hstep]
    | some p =>
        by_cases hfire : fireCond s i p
        · have hstep : ropeExtStep m s i =
              ropeExtRun m s (ropeConsumeInput s i p) i p RopeState.extending := by
            unfold ropeExtStep; rw [if_pos hmask]; simp only [hfp]; rw [if_pos hfire]
          have hst0 : stateAt s i = some RopeState.atRest := by
            have h1 := hfire.1
            rw [hrc] at h1
            rw [stateAt, hrc]
            simpa using h1
          have hflag : flagOf s i = true := by
            simp only [flagOf, hfp]
            exact hfire.2
          have hflag' : flagOf (ropeExtStep m s i) i = false := by
            simp only [flagOf, (ropeExtStep_obs m s i i).2.1, findPlayerIdx_ropeExtStep, hfp]
            rw [hstep, (ropeExtRun_ents m s (ropeConsumeInput s i p) i p
              RopeState.extending p).2.2.2.2.2.1, (ropeConsumeInput_self s i p).2]
            cases (s.ents p).playerInput <;> simp
          right; left
          refine ⟨hst0, hflag, hflag', ?_⟩
          by_cases hcl : ropeLen0 s i + 600 * (1 / 60) > 800
          · right
            constructor
            · rw [stateAt, hstep,
                ((ropeExtRun_self_extending m s (ropeConsumeInput s i p) i p).1 hcl).2,
                (ropeConsumeInput_self s i p).1, hrc]
              rfl
            · rw [lenOf, hstep,
                ((ropeExtRun_self_extending m s (ropeConsumeInput s i p) i p).1 hcl).1]
              rfl
          · left
            constructor
            · rw [stateAt, hstep,
                ((ropeExtRun_self_extending m s (ropeConsumeInput s i p) i p).2 hcl).2,
                (ropeConsumeInput_self s i p).1, hrc]
              rfl
            · rw [lenOf, hstep,
                ((ropeExtRun_self_extending m s (ropeConsumeInput s i p) i p).2 hcl).1]
              rfl
        · have hstep : ropeExtStep m s i = ropeExtRun m s s i p rc.state := by
            unfold ropeExtStep; rw [if_pos hmask]; simp only [hfp]; rw [if_neg hfire]
            simp [hrc]
          cases hrcst : rc.state with
          | atRest =>
              left
              rw [stateAt, hstep, hrcst, (ropeExtRun_self_atRest m s s i p).2, stateAt]
          | extending =>
              by_cases hcl : ropeLen0 s i + 600 * (1 / 60) > 800
              · right; right; left
                refine ⟨by rw [stateAt, hrc]; simp [hrcst], ?_, ?_⟩
                · rw [stateAt, hstep, hrcst,
                    ((ropeExtRun_self_extending m s s i p).1 hcl).2, hrc]
                  rfl
                · rw [lenOf, hstep, hrcst, ((ropeExtRun_self_extending m s s i p).1 hcl).1]
                  rfl
              · left
                rw [stateAt, hstep, hrcst, ((ropeExtRun_self_extending m s s i p).2 hcl).2,
                  stateAt]
          | retracting =>
              by_cases hcl : ropeLen0 s i - 900 * (1 / 60) ≤ 0
              · right; right; right
                refine ⟨by rw [stateAt, hrc]; simp [hrcst], ?_, ?_⟩
                · rw [stateAt, hstep, hrcst,
                    ((ropeExtRun_self_retracting m s s i p).1 hcl).2, hrc]
                  rfl
                · rw [lenOf, hstep, hrcst, ((ropeExtRun_self_retracting m s s i p).1 hcl).1]
                  rfl
              · left
                rw [stateAt, hstep, hrcst, ((ropeExtRun_self_retracting m s s i p).2 hcl).2,
                  stateAt]
  · intro t rope item rc hfree hrc
    unfold TryAttachCollectable stateAt
    simp [hfree, updComps_ents, withPhys_ents, hrc]

theorem C3_amended_witness :
    stateAt (TryAttachCollectable w3 0 1) 0 = some RopeState.retracting :=
  (C3_amended mZero w3 0).2.2 w3 0 1 ⟨RopeState.atRest⟩ (by decide) (by decide)

/-! ### Claim C7 — rope gravity scale -/

theorem swingMask_iff (c : EntityComps) :
    (c.roperTag && c.rotation.isSome && c.ropeControl.isSome && c.physicsBody.isSome &&
      c.playerInfo.isSome) = true ↔ swingMask c := by
  simp only [Bool.and_eq_true, swingMask]
  tauto

/-- One `RopeSwingSystem` iteration only rewrites the rope's `Rotation`
value, the swing-direction map, and its own body: every component
observation relevant to the loop is preserved at every entity. -/
theorem swingStep_obs (m : MathModel) (s : GMState) (k j : Nat) :
    ((swingStep m s k).ents j).roperTag = (s.ents j).roperTag ∧
    ((swingStep m s k).ents j).rotation.isSome = (s.ents j).rotation.isSome ∧
    ((swingStep m s k).ents j).ropeControl = (s.ents j).ropeControl ∧
    ((swingStep m s k).ents j).physicsBody = (s.ents j).physicsBody ∧
    ((swingStep m s k).ents j).playerInfo = (s.ents j).playerInfo ∧
    ((swingStep m s k).ents j).position = (s.ents j).position ∧
    (swingStep m s k).numEnts = s.numEnts := by
  unfold swingStep
  split
  · rename_i hmask
    have hrot : (s.ents k).rotation.isSome = true := by
      simp only [Bool.and_eq_true] at hmask
      exact hmask.1.1.1.2
    split
    · split
      · refine ⟨?_, ?_, ?_, ?_, ?_, ?_, rfl⟩ <;>
          simp only [swingWrite, Function.update_apply] <;>
          split_ifs <;> simp_all
      · refine ⟨?_, ?_, ?_, ?_, ?_, ?_, rfl⟩ <;>
          simp only [withPhys_ents, swingWrite, Function.update_apply] <;>
          split_ifs <;> simp_all
    · exact ⟨rfl, rfl, rfl, rfl, rfl, rfl, rfl⟩
  · exact ⟨rfl, rfl, rfl, rfl, rfl, rfl, rfl⟩

theorem swingWrite_phys (s : GMState) (i : Nat) : (swingWrite s i).phys = s.phys := rfl

/-- An iteration for an entity that is no rope, or whose body is not
`b`, leaves body `b` alone. -/
theorem swingStep_bodies (m : MathModel) (s : GMState) (k b : Nat)
    (h : swingMask (s.ents k) → bidOf s k ≠ b) :
    (swingStep m s k).phys.bodies b = s.phys.bodies b := by
  unfold swingStep
  split
  · rename_i hmask
    have hb := h ((swingMask_iff (s.ents k)).mp hmask)
    split
    · split
      · rfl
      · simp [withPhys, setGravityScale, setLinearVelocity, setBodyPos, swingWrite_phys, Ne.symm hb]
    · simp [withPhys, setGravityScale, Ne.symm hb]
  · rfl

/-- A rope not at rest gets gravity scale `1` installed on its body. -/
theorem swingStep_gravity_notAtRest (m : MathModel) (s : GMState) (i b : Nat)
    (hmask : swingMask (s.ents i)) (hb : bidOf s i = b)
    (hst : stateAt s i ≠ some RopeState.atRest) :
    (swingStep m s i).phys.bodies b =
      (s.phys.bodies b).map (fun bb => { bb with gravityScale := 1 }) := by
  obtain ⟨rc, hrc⟩ := Option.isSome_iff_exists.mp hmask.2.2.1
  have hstc : ¬ ((s.ents i).ropeControl.getD ⟨RopeState.atRest⟩).state = RopeState.atRest := by
    rw [hrc]
    intro hcon
    exact hst (by rw [stateAt, hrc]; simpa using congrArg some hcon)
  unfold swingStep
  rw [if_pos ((swingMask_iff (s.ents i)).mpr hmask), if_neg hstc]
  subst hb
  simp [withPhys, setGravityScale]

/-- A rope at rest whose owner is found gets gravity scale `0` installed
on its body. -/
theorem swingStep_gravity_atRest (m : MathModel) (s : GMState) (i b p : Nat)
    (hmask : swingMask (s.ents i)) (hb : bidOf s i = b)
    (hst : stateAt s i = some RopeState.atRest)
    (hfp : findPlayerIdx s (((s.ents i).playerInfo.getD ⟨-1⟩).playerID) = some p) :
    gravityOf (swingStep m s i) b = (s.phys.bodies b).map (fun _ => (0 : ℚ)) := by
  obtain ⟨rc, hrc⟩ := Option.isSome_iff_exists.mp hmask.2.2.1
  have hstc : ((s.ents i).ropeControl.getD ⟨RopeState.atRest⟩).state = RopeState.atRest := by
    rw [stateAt, hrc] at hst
    rw [hrc]
    simpa using hst
  unfold swingStep
  rw [if_pos ((swingMask_iff (s.ents i)).mpr hmask), if_pos hstc]
  simp only [hfp]
  subst hb
  simp only [gravityOf, withPhys, setGravityScale, setLinearVelocity, setBodyPos,
    swingWrite_phys, if_pos rfl]
  cases s.phys.bodies (bidOf s i) <;> simp

/-- The loop observations agree between `s` and `t`. -/
def swingObsEq (s t : GMState) : Prop :=
  t.numEnts = s.numEnts ∧
  ∀ j, (t.ents j).roperTag = (s.ents j).roperTag ∧
       (t.ents j).rotation.isSome = (s.ents j).rotation.isSome ∧
       (t.ents j).ropeControl = (s.ents j).ropeControl ∧
       (t.ents j).physicsBody = (s.ents j).physicsBody ∧
       (t.ents j).playerInfo = (s.ents j).playerInfo ∧
       (t.ents j).position = (s.ents j).position

theorem swingObsEq_refl (s : GMState) : swingObsEq s s :=
  ⟨rfl, fun _ => ⟨rfl, rfl, rfl, rfl, rfl, rfl⟩⟩

theorem swingObsEq_step (m : MathModel) (s t : GMState) (k : Nat) (h : swingObsEq s t) :
    swingObsEq s (swingStep m t k) := by
  obtain ⟨hn, hf⟩ := h
  refine ⟨((swingStep_obs m t k 0).2.2.2.2.2.2).trans hn, fun j => ?_⟩
  obtain ⟨o1, o2, o3, o4, o5, o6, _⟩ := swingStep_obs m t k j
  obtain ⟨f1, f2, f3, f4, f5, f6⟩ := hf j
  exact ⟨o1.trans f1, o2.trans f2, o3.trans f3, o4.trans f4, o5.trans f5, o6.trans f6⟩

theorem swingObsEq_mask (s t : GMState) (h : swingObsEq s t) (j : Nat) :
    swingMask (t.ents j) ↔ swingMask (s.ents j) := by
  obtain ⟨f1, f2, f3, f4, f5, _⟩ := h.2 j
  unfold swingMask
  rw [f1, f2, f3, f4, f5]

theorem swingObsEq_find (s t : GMState) (h : swingObsEq s t) (pid : Int) :
    findPlayerIdx t pid = findPlayerIdx s pid := by
  unfold findPlayerIdx
  rw [h.1]
  apply find_eq_of_agree
  intro a _
  obtain ⟨_, _, _, _, f5, f6⟩ := h.2 a
  rw [f5, f6]

/-- Folding iterations that all avoid entity `i` leaves the loop
observations and body `b` untouched, given that no other rope owns
body `b`. -/
theorem swingFold_other (m : MathModel) (s : GMState) (i b : Nat)
    (huniq : ∀ k, k < s.numEnts → k ≠ i → swingMask (s.ents k) → bidOf s k ≠ b) :
    ∀ (l : List Nat), (∀ k ∈ l, k ≠ i ∧ k < s.numEnts) →
      ∀ t, swingObsEq s t →
        swingObsEq s (l.foldl (swingStep m) t) ∧
        (l.foldl (swingStep m) t).phys.bodies b = t.phys.bodies b := by
  intro l
  induction l with
  | nil => exact fun _ t ht => ⟨ht, rfl⟩
  | cons k ks ih =>
      intro hl t ht
      obtain ⟨hknei, hklt⟩ := hl k (List.mem_cons_self k ks)
      have hbid : bidOf t k = bidOf s k := by
        rw [bidOf, bidOf, (ht.2 k).2.2.2.1]
      have hstep_b : (swingStep m t k).phys.bodies b = t.phys.bodies b := by
        apply swingStep_bodies
        intro hm
        rw [hbid]
        exact huniq k hklt hknei ((swingObsEq_mask s t ht k).mp hm)
      have hobs' := swingObsEq_step m s t k ht
      obtain ⟨h1, h2⟩ := ih (fun x hx => hl x (List.mem_cons_of_mem k hx)) (swingStep m t k) hobs'
      exact ⟨h1, h2.trans hstep_b⟩

/-- C7 fails as stated: an `Extending` rope (no `GrabbedJoint` anywhere)
comes out of `RopeSwingSystem` with gravity scale `1`, not `0`. -/
theorem C7_counterexample :
    stateAt w6 0 = some RopeState.extending ∧
    (w6.ents 0).grabbedJoint = none ∧
    gravityOf (RopeSwingSystem mZero w6) 0 = some 1 := by
  decide

/-- C7 amended per the code: `RopeSwingSystem` installs gravity scale
`1` on the rope's body whenever the rope is not `AtRest` — `Extending`
or `Retracting`, with or without a `GrabbedJoint` — and gravity scale
`0` when it is `AtRest` and its owner is found.  (Gravity is disabled
only at rest, not during extension.) -/
theorem C7_amended (m : MathModel) (s : GMState) (i b : Nat)
    (hin : i < s.numEnts)
    (hmask : swingMask (s.ents i))
    (hb : bidOf s i = b)
    (huniq : ∀ k, k < s.numEnts → k ≠ i → swingMask (s.ents k) → bidOf s k ≠ b) :
    (stateAt s i ≠ some RopeState.atRest →
      gravityOf (RopeSwingSystem m s) b = (s.phys.bodies b).map (fun _ => (1 : ℚ))) ∧
    (stateAt s i = some RopeState.atRest →
      ∀ p, findPlayerIdx s (((s.ents i).playerInfo.getD ⟨-1⟩).playerID) = some p →
      gravityOf (RopeSwingSystem m s) b = (s.phys.bodies b).map (fun _ => (0 : ℚ))) := by
  have hsplit : RopeSwingSystem m s =
      (List.range' (i + 1) (s.numEnts - i - 1)).foldl (swingStep m)
        (swingStep m ((List.range i).foldl (swingStep m) s) i) := by
    rw [RopeSwingSystem, range_split s.numEnts i hin, List.foldl_append, List.foldl_cons]
  have hA := swingFold_other m s i b huniq (List.range i)
    (fun k hk => ⟨Nat.ne_of_lt (List.mem_range.mp hk), Nat.lt_trans (List.mem_range.mp hk) hin⟩)
    s (swingObsEq_refl s)
  set tA := (List.range i).foldl (swingStep m) s with htA
  obtain ⟨obsA, bodiesA⟩ := hA
  have hmaskA : swingMask (tA.ents i) := (swingObsEq_mask s tA obsA i).mpr hmask
  have hbA : bidOf tA i = b := by rw [bidOf, (obsA.2 i).2.2.2.1, ← bidOf, hb]
  have hstA : stateAt tA i = stateAt s i := by rw [stateAt, stateAt, (obsA.2 i).2.2.1]
  have hCmem : ∀ k ∈ List.range' (i + 1) (s.numEnts - i - 1), k ≠ i ∧ k < s.numEnts := by
    intro k hk
    have := List.mem_range'_1.mp hk
    omega
  have hobsB : swingObsEq s (swingStep m tA i) := swingObsEq_step m s tA i obsA
  have hC := swingFold_other m s i b huniq (List.range' (i + 1) (s.numEnts - i - 1)) hCmem
    (swingStep m tA i) hobsB
  constructor
  · intro hst
    have hstep := swingStep_gravity_notAtRest m tA i b hmaskA hbA (hstA.trans_ne hst)
    rw [gravityOf, hsplit, hC.2, hstep, bodiesA, Option.map_map]
    cases s.phys.bodies b <;> simp
  · intro hst p hfp
    have hfpA : findPlayerIdx tA (((tA.ents i).playerInfo.getD ⟨-1⟩).playerID) = some p := by
      rw [(obsA.2 i).2.2.2.2.1, swingObsEq_find s tA obsA]
      exact hfp
    have hstep := swingStep_gravity_atRest m tA i b p hmaskA hbA (hstA.trans hst) hfpA
    rw [gravityOf, hsplit, hC.2]
    rw [gravityOf] at hstep
    rw [hstep, bodiesA]

theorem C7_amended_witness :
    gravityOf (RopeSwingSystem mZero w6) 0 = (w6.phys.bodies 0).map (fun _ => (1 : ℚ)) :=
  (C7_amended mZero w6 0 0 (by decide) (by decide) (by decide)
    (fun k hk hne hm => by
      have hk2 : k < 2 := hk
      interval_cases k
      · exact absurd rfl hne
      · exact absurd hm (by decide))).1 (by decide)

end GoldMiner
